import Mathlib

/-!
Verification of the baseline-scan driver (`zap-baseline.py`) against its
specification.  The Python source is shallowly embedded below: pure pieces
become Lean functions, the dictionaries (`config_dict`, `alert_dict`,
`all_dict`, `pass_dict`) are embedded through their observable lookup
behaviour (Python dict iteration order is never observed by the script —
every iteration goes through `sorted(...)`), and the polling loops become
fuel-indexed functions over behaviour traces of the external engine.
-/

namespace ZapBaseline

/-- `timeout = 120` (line 56): bound on the readiness-probe loop. -/
def timeout : Nat := 120

/-- `blacklist = ['-1', '50003', '60000', '60001']` (line 59). -/
def blacklist : List String := ["-1", "50003", "60000", "60001"]

/-- One alert returned by `zap.core.alerts()`: the script reads the
`pluginId`, `alert` (title) and `url` keys. -/
structure Alert where
  pluginId : String
  alert : String
  url : String
deriving DecidableEq, Repr

/-- One entry of `zap.pscan.scanners`: the script reads `id` and `name`. -/
structure Rule where
  id : String
  name : String
deriving DecidableEq, Repr

/-! ## Character-level string primitives

Python's `str.split('\t')`, `str.rstrip()`, `str.startswith('#')`, `len`,
`'\t' in s` and the lexicographic order `sorted()` uses are implemented
structurally over the character list of the string (the rule ids and
actions involved are ASCII, where Python 2's byte order coincides with
code-point order). -/

/-- Python `s.split('\t')`: keeps empty fields, `''` yields `['']`. -/
def splitTabs : List Char → List (List Char)
  | [] => [[]]
  | c :: cs =>
    if c = '\t' then [] :: splitTabs cs
    else
      match splitTabs cs with
      | h :: t => (c :: h) :: t
      | [] => [[c]]

/-- The whitespace set stripped by Python `str.rstrip()`. -/
def isPyWhitespace (c : Char) : Bool :=
  c == ' ' || c == '\t' || c == '\n' || c == '\r' || c == '\x0b' || c == '\x0c'

/-- Python `s.rstrip()`. -/
def rstripChars (cs : List Char) : List Char :=
  (cs.reverse.dropWhile isPyWhitespace).reverse

/-- Rebuild the remainder that `split('\t', 2)` leaves unsplit. -/
def joinTabs : List (List Char) → List Char
  | [] => []
  | [x] => x
  | x :: y :: t => x ++ '\t' :: joinTabs (y :: t)

/-- Lexicographic code-point comparison: the string order of `sorted()`. -/
def charListLe : List Char → List Char → Bool
  | [], _ => true
  | _ :: _, [] => false
  | a :: as, b :: bs =>
    if a < b then true
    else if b < a then false
    else charListLe as bs

/-- `a ≤ b` on strings, as `sorted()` orders the dictionary keys. -/
def strLe (a b : String) : Bool := charListLe a.data b.data

/-! ## Policy source loading (lines 155-183) -/

/-- Line filter (lines 161/173): `not line.startswith('#') and len(line) > 1`. -/
def lineRelevant (line : String) : Bool :=
  (match line.data with
   | c :: _ => !(c == '#')
   | [] => true) && decide (1 < line.data.length)

/-- `(key, val, optional) = line.split('\t', 2)` followed by the optional
`(ignore, usermsg) = optional.rstrip().split('\t')` (lines 162-168), on
character lists.  `none` models the `ValueError` Python raises when tuple
unpacking fails: fewer than two tabs on the line, or a remainder still
holding two or more tabs after `rstrip`. -/
def parseLineChars (cs : List Char) : Option (List Char × List Char × List Char) :=
  match splitTabs cs with
  | key :: val :: r :: rest =>
    let optional := joinTabs (r :: rest)
    if optional.any (fun c => c == '\t') then
      match splitTabs (rstripChars optional) with
      | [_, usermsg] => some (key, val, usermsg)
      | _ => none
    else
      some (key, val, [])
  | _ => none

/-- Lines 162-168 on `String`. -/
def parseLine (line : String) : Option (String × String × String) :=
  (parseLineChars line.data).map
    (fun t => (String.mk t.1, String.mk t.2.1, String.mk t.2.2))

/-- Python dict assignment `m[k] = v` on an association list (last wins). -/
def setKey (m : List (String × String)) (k v : String) : List (String × String) :=
  if m.any (fun p => p.1 == k) then
    m.map (fun p => if p.1 == k then (k, v) else p)
  else
    m ++ [(k, v)]

/-- Python dict lookup `m[k]` / `m.has_key(k)` on an association list. -/
def lookup (m : List (String × String)) (k : String) : Option String :=
  (m.find? (fun p => p.1 == k)).map (fun p => p.2)

/-- The per-line loading loop (lines 160-168 and 172-180), building
`config_dict` and `config_msg`.  `none` models a `ValueError` escaping
the loop. -/
def loadLines : List String → List (String × String) → List (String × String) →
    Option (List (String × String) × List (String × String))
  | [], d, m => some (d, m)
  | line :: rest, d, m =>
    if lineRelevant line then
      match parseLine line with
      | some (key, val, msg) => loadLines rest (setKey d key val) (setKey m key msg)
      | none => none
    else
      loadLines rest d m

/-- Where the policy document comes from: no `-c`/`-u` option, a local file
(`none` = `open` raises `IOError`, line 159), or a remote URL (`none` =
`urllib2.urlopen` or the iteration raises, line 172). -/
inductive ConfigSource
  | noSource
  | localFile (lines : Option (List String))
  | remoteUrl (lines : Option (List String))

/-- Outcome of the loading phase.  `uncaught` models an exception escaping
`main` — lines 157-168 sit outside every `try` block, so the interpreter
terminates with status 1.  `exit3` is the `sys.exit(3)` on line 183. -/
inductive LoadOutcome
  | ok (dict : List (String × String)) (msgs : List (String × String))
  | uncaught
  | exit3
deriving DecidableEq, Repr

/-- Process exit status produced by each loading outcome (`none` = the run
continues).  A Python process terminates with status 1 on an uncaught
exception. -/
def exitStatusOf : LoadOutcome → Option Nat
  | .ok _ _ => none
  | .uncaught => some 1
  | .exit3 => some 3

/-- Lines 155-183: build `config_dict`/`config_msg` from the configured
source.  The local-file branch has no exception handler; the remote branch
wraps everything in `try: ... except: sys.exit(3)`. -/
def loadPolicy : ConfigSource → LoadOutcome
  | .noSource => .ok [] []
  | .localFile none => .uncaught
  | .localFile (some ls) =>
    match loadLines ls [] [] with
    | some (d, m) => .ok d m
    | none => .uncaught
  | .remoteUrl none => .exit3
  | .remoteUrl (some ls) =>
    match loadLines ls [] [] with
    | some (d, m) => .ok d m
    | none => .exit3

/-! ## Alert classification (lines 249-311) -/

/-- The four actions a verdict group can resolve to. -/
inductive Action
  | IGNORE
  | FAIL
  | INFO
  | WARN
deriving DecidableEq, Repr

/-- The resolution chain of lines 294-305, verbatim:
`if config_dict.has_key(key) and config_dict[key] == 'IGNORE'` →
`elif ... == 'FAIL'` →
`elif info_unspecified or (config_dict.has_key(key) and config_dict[key] == 'INFO')` →
`else WARN`. -/
def resolveAction (config : List (String × String)) (info_unspecified : Bool)
    (key : String) : Action :=
  if lookup config key = some "IGNORE" then .IGNORE
  else if lookup config key = some "FAIL" then .FAIL
  else if info_unspecified = true ∨ lookup config key = some "INFO" then .INFO
  else .WARN

/-- `alert_dict[k]`: the grouping loop of lines 251-257 projected at key
`k` — alerts whose `pluginId` is blacklisted are skipped (line 253),
everything else is appended to its group in encounter order. -/
def alertDict (alerts : List Alert) (k : String) : List Alert :=
  alerts.foldl
    (fun g a =>
      if a.pluginId ∈ blacklist then g
      else if a.pluginId = k then g ++ [a] else g)
    []

/-- The key sequence of `sorted(alert_dict.iteritems())` (line 293): the
distinct non-blacklisted plugin ids of the alerts, in sorted order. -/
def sortedKeys (alerts : List Alert) : List String :=
  List.insertionSort (fun a b => strLe a b = true)
    (((alerts.map (fun a => a.pluginId)).filter
      (fun k => !(decide (k ∈ blacklist)))).dedup)

/-- `all_dict[k]` (lines 259-265): last non-blacklisted rule with id `k`
wins, mirroring dict assignment. -/
def allDict (rules : List Rule) (k : String) : Option String :=
  rules.foldl
    (fun v r =>
      if r.id ∈ blacklist then v
      else if r.id = k then some r.name else v)
    none

/-- The key sequence of `sorted(all_dict.iteritems())` (line 274). -/
def templateKeys (rules : List Rule) : List String :=
  List.insertionSort (fun a b => strLe a b = true)
    (((rules.map (fun r => r.id)).filter
      (fun k => !(decide (k ∈ blacklist)))).dedup)

/-- The generated config template body (lines 274-275):
`key + '\tWARN\t(' + rule + ')'` per rule, sorted. -/
def templateLines (rules : List Rule) : List String :=
  (templateKeys rules).map
    (fun k => k ++ "\tWARN\t(" ++ (allDict rules k).getD "" ++ ")")

/-- The keys of `pass_dict` (lines 278-284): distinct non-blacklisted rule
ids with no alert group (`not alert_dict.has_key(plugin_id)`). -/
def passIds (alerts : List Alert) (rules : List Rule) : List String :=
  (((rules.map (fun r => r.id)).filter
    (fun k => !(decide (k ∈ blacklist)) && decide (alertDict alerts k = []))).dedup)

/-- The five run counters (lines 91-95 / 290-305). -/
structure Counters where
  pass : Nat
  warn : Nat
  fail : Nat
  info : Nat
  ignore : Nat
deriving DecidableEq, Repr

def zeroCounters : Counters := ⟨0, 0, 0, 0, 0⟩

/-- One `+= 1` of the classification loop. -/
def bump (c : Counters) : Action → Counters
  | .IGNORE => { c with ignore := c.ignore + 1 }
  | .FAIL => { c with fail := c.fail + 1 }
  | .INFO => { c with info := c.info + 1 }
  | .WARN => { c with warn := c.warn + 1 }

/-- Counters after `pass_count = len(pass_dict)` (line 290) and the
classification loop over `sorted(alert_dict.iteritems())` (lines 293-305). -/
def runCounters (alerts : List Alert) (rules : List Rule)
    (config : List (String × String)) (info_unspecified : Bool) : Counters :=
  (sortedKeys alerts).foldl
    (fun c k => bump c (resolveAction config info_unspecified k))
    { zeroCounters with pass := (passIds alerts rules).length }

/-- One printed verdict-group line (lines 307-311): resolved action, the
representative `alert_list[0]`'s title and plugin id, the instance count,
and the (up to) first five example urls. -/
structure GroupLine where
  action : Action
  title : String
  pluginId : String
  count : Nat
  urls : List String
deriving DecidableEq, Repr

/-- The printed verdict groups, in the order of lines 293-311. -/
def groupLines (alerts : List Alert) (config : List (String × String))
    (info_unspecified : Bool) : List GroupLine :=
  (sortedKeys alerts).map
    (fun k =>
      let g := alertDict alerts k
      { action := resolveAction config info_unspecified k
        title := ((g.head?).map (fun a => a.alert)).getD ""
        pluginId := ((g.head?).map (fun a => a.pluginId)).getD ""
        count := g.length
        urls := (g.take 5).map (fun a => a.url) })

/-- The exit ladder of lines 336-343. -/
def exitCode (c : Counters) : Nat :=
  if c.fail > 0 then 1
  else if c.warn > 0 then 2
  else if c.pass > 0 then 0
  else 3

/-! ## Scan orchestration (lines 185-343)

The external engine is embedded as a behaviour: what each poll of
`zap.spider.status` / `(datetime.now() - start).seconds` /
`zap.pscan.records_to_scan` returns at the i-th round, whether the probe
`zap.core.version` succeeds at the i-th attempt, and whether
`zap.urlopen(target)` raises.  Unbounded `while` loops take fuel; `none`
means the fuel ran out before the loop exited. -/

/-- The spider wait loop (lines 223-231): while the reported progress at
round `i` is below 100, break once the elapsed seconds at round `i`
exceed `mins * 60 + 10`, else sleep and poll round `i + 1`. -/
def spiderWait (status elapsed : Nat → Nat) (mins : Nat) :
    Nat → Nat → Option Nat
  | 0, _ => none
  | fuel + 1, i =>
    if status i < 100 then
      if elapsed i > mins * 60 + 10 then some i
      else spiderWait status elapsed mins fuel (i + 1)
    else some i

/-- The passive-scan drain loop (lines 236-238): poll until
`records_to_scan` reaches 0; no time bound. -/
def pscanWait (records : Nat → Nat) : Nat → Nat → Option Nat
  | 0, _ => none
  | fuel + 1, i =>
    if records i > 0 then pscanWait records fuel (i + 1) else some i

/-- The readiness probe loop (lines 207-212): `for x in range(0, timeout)`
attempting `zap.core.version`, breaking on the first success, sleeping a
unit otherwise.  Returns the number of probe attempts made; the loop ends
after at most `timeout` attempts whether or not the engine ever became
ready, and nothing after it consults the result. -/
def probeAttempts (ready : Nat → Bool) : Nat :=
  match (List.range timeout).find? (fun i => ready i) with
  | some i => i + 1
  | none => timeout

/-- Observable behaviour of the external engine during one run. -/
structure EngineBehavior where
  ready : Nat → Bool
  openRaises : Bool
  spiderStatus : Nat → Nat
  spiderElapsed : Nat → Nat
  pscanRecords : Nat → Nat
  urls : Nat
  alerts : List Alert
  rules : List Rule

/-- Externally visible steps of the scan body, in execution order. -/
inductive Event
  | openTarget
  | spiderScan
  | spiderComplete
  | pscanComplete
  | reportBody
  | engineShutdown
  | ioErrorCaught
deriving DecidableEq, Repr

/-- The run options consumed after the scan finishes. -/
structure RunConfig where
  config : List (String × String)
  info_unspecified : Bool
  generate : Bool
  report_html : Bool
  report_xml : Bool
  mins : Nat

/-- What the `num_urls` branch produces (lines 241-324). -/
structure BodyOutput where
  counters : Counters
  template : Option (List String)
  htmlWritten : Bool
  xmlWritten : Bool
deriving DecidableEq, Repr

/-- Lines 241-324: when `num_urls == 0` only a warning is logged and the
whole classification / template / report block is skipped; otherwise the
alerts are classified, the template is generated when requested and the
report files are written when requested. -/
def runBody (numUrls : Nat) (alerts : List Alert) (rules : List Rule)
    (rc : RunConfig) : BodyOutput :=
  if numUrls == 0 then
    { counters := zeroCounters
      template := none
      htmlWritten := false
      xmlWritten := false }
  else
    { counters := runCounters alerts rules rc.config rc.info_unspecified
      template := if rc.generate then some (templateLines rules) else none
      htmlWritten := rc.report_html
      xmlWritten := rc.report_xml }

/-- The scan `try` block plus the final exit ladder (lines 204-343).  The
readiness loop runs first (lines 207-212) but its outcome is not
consulted: execution always continues to `zap.urlopen(target)`.  An
`IOError` raised there is caught by the handler on line 329 and the run
falls through to the exit ladder with all counters still zero. -/
def scanRun (e : EngineBehavior) (rc : RunConfig) (fuel : Nat) :
    Option (List Event × BodyOutput × Nat) :=
  if e.openRaises then
    some ([.openTarget, .ioErrorCaught],
      { counters := zeroCounters, template := none,
        htmlWritten := false, xmlWritten := false },
      exitCode zeroCounters)
  else
    match spiderWait e.spiderStatus e.spiderElapsed rc.mins fuel 0 with
    | none => none
    | some _ =>
      match pscanWait e.pscanRecords fuel 0 with
      | none => none
      | some _ =>
        let out := runBody e.urls e.alerts e.rules rc
        some ([.openTarget, .spiderScan, .spiderComplete, .pscanComplete] ++
          (if e.urls == 0 then [] else [.reportBody]) ++ [.engineShutdown],
          out, exitCode out.counters)

/-- An engine that never becomes ready; probing it cannot succeed, and the
subsequent `zap.urlopen` through the dead proxy raises. -/
def neverReadyEngine : EngineBehavior :=
  { ready := fun _ => false
    openRaises := true
    spiderStatus := fun _ => 0
    spiderElapsed := fun _ => 0
    pscanRecords := fun _ => 0
    urls := 0
    alerts := []
    rules := [] }

/-- A plain run configuration: no policy, defaults everywhere. -/
def defaultRC : RunConfig :=
  { config := []
    info_unspecified := false
    generate := false
    report_html := false
    report_xml := false
    mins := 1 }

/-! ## Helper lemmas -/

theorem string_ext {s t : String} (h : s.data = t.data) : s = t := by
  cases s
  cases t
  exact congrArg String.mk h

theorem charListLe_cons_iff {a b : Char} {as bs : List Char} :
    charListLe (a :: as) (b :: bs) = true ↔
      a < b ∨ (a = b ∧ charListLe as bs = true) := by
  show (if a < b then true else if b < a then false else charListLe as bs) = true ↔ _
  constructor
  · intro h
    by_cases hab : a < b
    · exact Or.inl hab
    · by_cases hba : b < a
      · rw [if_neg hab, if_pos hba] at h
        exact absurd h (by simp)
      · refine Or.inr ⟨le_antisymm (not_lt.mp hba) (not_lt.mp hab), ?h⟩
        rwa [if_neg hab, if_neg hba] at h
  · intro h
    rcases h with h | ⟨rfl, h⟩
    · rw [if_pos h]
    · rw [if_neg (lt_irrefl a), if_neg (lt_irrefl a)]
      exact h

theorem charListLe_total : ∀ as bs : List Char,
    charListLe as bs = true ∨ charListLe bs as = true
  | [], _ => Or.inl rfl
  | _ :: _, [] => Or.inr rfl
  | a :: as, b :: bs => by
    rcases lt_trichotomy a b with h | h | h
    · exact Or.inl (charListLe_cons_iff.mpr (Or.inl h))
    · subst h
      rcases charListLe_total as bs with h2 | h2
      · exact Or.inl (charListLe_cons_iff.mpr (Or.inr ⟨rfl, h2⟩))
      · exact Or.inr (charListLe_cons_iff.mpr (Or.inr ⟨rfl, h2⟩))
    · exact Or.inr (charListLe_cons_iff.mpr (Or.inl h))

theorem charListLe_trans : ∀ as bs cs : List Char,
    charListLe as bs = true → charListLe bs cs = true → charListLe as cs = true
  | [], _, _ => fun _ _ => rfl
  | _ :: _, [], _ => by
    intro h _
    exact absurd h (by simp [charListLe])
  | _ :: _, _ :: _, [] => by
    intro _ h
    exact absurd h (by simp [charListLe])
  | a :: as, b :: bs, c :: cs => by
    intro h1 h2
    rcases charListLe_cons_iff.mp h1 with hab | ⟨rfl, hab⟩
    · rcases charListLe_cons_iff.mp h2 with hbc | ⟨rfl, hbc⟩
      · exact charListLe_cons_iff.mpr (Or.inl (lt_trans hab hbc))
      · exact charListLe_cons_iff.mpr (Or.inl hab)
    · rcases charListLe_cons_iff.mp h2 with hbc | ⟨rfl, hbc⟩
      · exact charListLe_cons_iff.mpr (Or.inl hbc)
      · exact charListLe_cons_iff.mpr (Or.inr ⟨rfl, charListLe_trans as bs cs hab hbc⟩)

theorem charListLe_antisymm : ∀ as bs : List Char,
    charListLe as bs = true → charListLe bs as = true → as = bs
  | [], [] => fun _ _ => rfl
  | [], _ :: _ => by
    intro _ h
    exact absurd h (by simp [charListLe])
  | _ :: _, [] => by
    intro h _
    exact absurd h (by simp [charListLe])
  | a :: as, b :: bs => by
    intro h1 h2
    rcases charListLe_cons_iff.mp h1 with hab | ⟨rfl, hab⟩
    · rcases charListLe_cons_iff.mp h2 with hba | ⟨hba, _⟩
      · exact absurd hba (lt_asymm hab)
      · exact absurd (hba ▸ hab) (lt_irrefl b)
    · rcases charListLe_cons_iff.mp h2 with hba | ⟨_, hba⟩
      · exact absurd hba (lt_irrefl a)
      · rw [charListLe_antisymm as bs hab hba]

instance : IsTotal String (fun a b => strLe a b = true) :=
  ⟨fun a b => charListLe_total a.data b.data⟩

instance : IsTrans String (fun a b => strLe a b = true) :=
  ⟨fun a b c => charListLe_trans a.data b.data c.data⟩

instance : IsAntisymm String (fun a b => strLe a b = true) :=
  ⟨fun a b h1 h2 => string_ext (charListLe_antisymm a.data b.data h1 h2)⟩

/-- The grouping fold of lines 251-257, solved: at a blacklisted key the
group is empty, otherwise it is the sublist of alerts carrying that key,
in encounter order. -/
theorem alertDict_eq_filter (alerts : List Alert) (k : String) :
    alertDict alerts k =
      if k ∈ blacklist then []
      else alerts.filter (fun a => decide (a.pluginId = k)) := by
  suffices h : ∀ (l : List Alert) (acc : List Alert),
      l.foldl (fun g a => if a.pluginId ∈ blacklist then g
        else if a.pluginId = k then g ++ [a] else g) acc
      = acc ++ (if k ∈ blacklist then []
        else l.filter (fun a => decide (a.pluginId = k))) by
    simpa using h alerts []
  intro l
  induction l with
  | nil => intro acc; simp
  | cons a l ih =>
    intro acc
    simp only [List.foldl_cons]
    by_cases hbl : a.pluginId ∈ blacklist
    · rw [if_pos hbl, ih acc]
      by_cases hk : k ∈ blacklist
      · simp [hk]
      · have hak : ¬(a.pluginId = k) := fun h => hk (h ▸ hbl)
        simp [hk, List.filter_cons, hak]
    · rw [if_neg hbl]
      by_cases hak : a.pluginId = k
      · rw [if_pos hak, ih (acc ++ [a])]
        have hk : k ∉ blacklist := fun h => hbl (hak ▸ h)
        simp [hk, List.filter_cons, hak]
      · rw [if_neg hak, ih acc]
        by_cases hk : k ∈ blacklist
        · simp [hk]
        · simp [hk, List.filter_cons, hak]

theorem mem_sortedKeys {alerts : List Alert} {k : String} :
    k ∈ sortedKeys alerts ↔ k ∉ blacklist ∧ ∃ a ∈ alerts, a.pluginId = k := by
  unfold sortedKeys
  rw [(List.perm_insertionSort _ _).mem_iff, List.mem_dedup, List.mem_filter]
  simp only [List.mem_map, Bool.not_eq_true', decide_eq_false_iff_not]
  tauto

theorem nodup_sortedKeys (alerts : List Alert) : (sortedKeys alerts).Nodup :=
  ((List.perm_insertionSort _ _).nodup_iff).mpr (List.nodup_dedup _)

theorem sorted_sortedKeys (alerts : List Alert) :
    List.Sorted (fun a b => strLe a b = true) (sortedKeys alerts) :=
  List.sorted_insertionSort _ _

/-- The `fail_count` accumulated by the classification loop counts the
groups that resolve to FAIL. -/
theorem foldl_bump_fail (config : List (String × String)) (iu : Bool) :
    ∀ (keys : List String) (c : Counters),
      (keys.foldl (fun acc k => bump acc (resolveAction config iu k)) c).fail
        = c.fail + keys.countP (fun k => decide (resolveAction config iu k = Action.FAIL))
  | [], c => by simp
  | k :: keys, c => by
    simp only [List.foldl_cons, List.countP_cons]
    rw [foldl_bump_fail config iu keys]
    cases h : resolveAction config iu k <;>
      simp [bump, h, Nat.add_assoc, Nat.add_comm, Nat.add_left_comm]

theorem eq_singleton_of_nodup {α : Type} {l : List α} {k : α}
    (hn : l.Nodup) (hall : ∀ x ∈ l, x = k) (hk : k ∈ l) : l = [k] := by
  cases l with
  | nil => cases hk
  | cons a t =>
    have ha : a = k := hall a (List.mem_cons_self a t)
    subst ha
    cases t with
    | nil => rfl
    | cons b t2 =>
      have hb : b = a := hall b (by simp)
      subst hb
      simp at hn

/-- Soundness of the spider wait loop: an exit at round `i` means the
exit condition held at `i` and at no earlier polled round. -/
theorem spiderWait_sound (status elapsed : Nat → Nat) (mins : Nat) :
    ∀ (fuel s i : Nat), spiderWait status elapsed mins fuel s = some i →
      s ≤ i ∧ (100 ≤ status i ∨ mins * 60 + 10 < elapsed i) ∧
      ∀ j, s ≤ j → j < i → status j < 100 ∧ elapsed j ≤ mins * 60 + 10
  | 0, s, i => by
    intro h
    exact absurd h (by simp [spiderWait])
  | fuel + 1, s, i => by
    intro h
    simp only [spiderWait] at h
    by_cases hs : status s < 100
    · rw [if_pos hs] at h
      by_cases he : elapsed s > mins * 60 + 10
      · rw [if_pos he] at h
        obtain rfl : s = i := Option.some.inj h
        exact ⟨le_refl _, Or.inr he,
          fun j hj1 hj2 => absurd (lt_of_le_of_lt hj1 hj2) (lt_irrefl _)⟩
      · rw [if_neg he] at h
        have ih := spiderWait_sound status elapsed mins fuel (s + 1) i h
        refine ⟨le_trans (Nat.le_succ s) ih.1, ih.2.1, ?before⟩
        intro j hj1 hj2
        rcases Nat.eq_or_lt_of_le hj1 with rfl | hlt
        · exact ⟨hs, not_lt.mp he⟩
        · exact ih.2.2 j hlt hj2
    · rw [if_neg hs] at h
      obtain rfl : s = i := Option.some.inj h
      exact ⟨le_refl _, Or.inl (not_lt.mp hs),
        fun j hj1 hj2 => absurd (lt_of_le_of_lt hj1 hj2) (lt_irrefl _)⟩

/-- Completeness of the spider wait loop: given enough fuel, the loop
exits at the first round satisfying the exit condition. -/
theorem spiderWait_complete (status elapsed : Nat → Nat) (mins : Nat) :
    ∀ (fuel s i : Nat), s ≤ i → i < s + fuel →
      (100 ≤ status i ∨ mins * 60 + 10 < elapsed i) →
      (∀ j, s ≤ j → j < i → status j < 100 ∧ elapsed j ≤ mins * 60 + 10) →
      spiderWait status elapsed mins fuel s = some i
  | 0, s, i => by
    intro h1 h2
    omega
  | fuel + 1, s, i => by
    intro hsi hlt hcond hbefore
    simp only [spiderWait]
    rcases Nat.eq_or_lt_of_le hsi with rfl | hslt
    · by_cases hs : status s < 100
      · have he : mins * 60 + 10 < elapsed s := by
          rcases hcond with hc | hc
          · exact absurd hc (not_le.mpr hs)
          · exact hc
        rw [if_pos hs, if_pos he]
      · rw [if_neg hs]
    · have hj := hbefore s (le_refl s) hslt
      rw [if_pos hj.1, if_neg (not_lt.mpr hj.2)]
      exact spiderWait_complete status elapsed mins fuel (s + 1) i hslt (by omega)
        hcond (fun j h1 h2 => hbefore j (le_trans (Nat.le_succ s) h1) h2)

/-- An unrecognized policy action falls through the whole resolution
chain of lines 294-305 exactly like an explicit WARN entry does. -/
theorem resolveAction_of_unrecognized (config : List (String × String))
    (key v : String) (iu : Bool) (hv : lookup config key = some v)
    (h1 : v ≠ "IGNORE") (h2 : v ≠ "FAIL") (h3 : v ≠ "INFO") :
    resolveAction config iu key = if iu then Action.INFO else Action.WARN := by
  unfold resolveAction
  rw [hv, if_neg (fun h => h1 (Option.some.inj h)),
    if_neg (fun h => h2 (Option.some.inj h))]
  cases iu
  · rw [if_neg (fun h => h.elim (fun hb => Bool.noConfusion hb)
      (fun hs => h3 (Option.some.inj hs)))]
    simp
  · rw [if_pos (Or.inl rfl)]
    simp

/-! ## Claim theorems -/

/-- Claim C1 (evaluating the code at the failing input): with the `-i`
info-unspecified mode active, a rule carrying an explicit `WARN` policy
entry resolves to INFO, not WARN — the `info_unspecified or ...` disjunct
on line 300 fires before the explicit-WARN fallback is reached, so the
claim (and the `-i` help text, which promises INFO only for rules not in
the config file) does not hold of the code. -/
theorem c1_explicit_warn_entry_overridden_in_info_mode :
    resolveAction [("100", "WARN")] true "100" = Action.INFO ∧
    (runCounters [⟨"100", "t", "u"⟩] [] [("100", "WARN")] true).info = 1 ∧
    (runCounters [⟨"100", "t", "u"⟩] [] [("100", "WARN")] true).warn = 0 := by
  decide

/-- Claim C2: the exit code follows the ordinal ladder over the run
counters (FAIL → 1, else WARN → 2, else PASS → 0, else 3), and any
classified finding whose rule id carries an explicit FAIL policy entry
forces exit code 1 regardless of everything else in the run. -/
theorem c2_fail_entry_forces_exit_one (c : Counters)
    (alerts : List Alert) (rules : List Rule)
    (config : List (String × String)) (iu : Bool) (a : Alert)
    (ha : a ∈ alerts) (hbl : a.pluginId ∉ blacklist)
    (hc : lookup config a.pluginId = some "FAIL") :
    (0 < c.fail → exitCode c = 1) ∧
    (c.fail = 0 → 0 < c.warn → exitCode c = 2) ∧
    (c.fail = 0 → c.warn = 0 → 0 < c.pass → exitCode c = 0) ∧
    (c.fail = 0 → c.warn = 0 → c.pass = 0 → exitCode c = 3) ∧
    exitCode (runCounters alerts rules config iu) = 1 := by
  refine ⟨?e1, ?e2, ?e3, ?e4, ?main⟩
  · intro h
    simp [exitCode, h]
  · intro h0 h
    simp [exitCode, h0, h]
  · intro h0 h1 h
    simp [exitCode, h0, h1, h]
  · intro h0 h1 h2
    simp [exitCode, h0, h1, h2]
  · have hres : resolveAction config iu a.pluginId = Action.FAIL := by
      unfold resolveAction
      rw [hc, if_neg (by decide), if_pos rfl]
    have hfail : 0 < (runCounters alerts rules config iu).fail := by
      unfold runCounters
      rw [foldl_bump_fail]
      have hk : a.pluginId ∈ sortedKeys alerts :=
        mem_sortedKeys.mpr ⟨hbl, a, ha, rfl⟩
      have hpos : 0 < (sortedKeys alerts).countP
          (fun k => decide (resolveAction config iu k = Action.FAIL)) :=
        List.countP_pos_iff.mpr ⟨a.pluginId, hk, by simp [hres]⟩
      omega
    simp [exitCode, hfail]

/-- Witness for C2 at a concrete run: one FAIL-classified group among a
WARN group and a passing catalog rule still exits 1. -/
theorem c2_fail_entry_forces_exit_one_witness :
    (⟨"10", "t", "u"⟩ : Alert) ∈
      [(⟨"10", "t", "u"⟩ : Alert), ⟨"20", "t2", "u2"⟩] ∧
    ("10" : String) ∉ blacklist ∧
    lookup [("10", "FAIL")] "10" = some "FAIL" ∧
    exitCode (runCounters [⟨"10", "t", "u"⟩, ⟨"20", "t2", "u2"⟩]
      [⟨"30", "r"⟩] [("10", "FAIL")] false) = 1 :=
  ⟨by decide, by decide, by decide,
    (c2_fail_entry_forces_exit_one zeroCounters
      [⟨"10", "t", "u"⟩, ⟨"20", "t2", "u2"⟩] [⟨"30", "r"⟩]
      [("10", "FAIL")] false ⟨"10", "t", "u"⟩
      (by decide) (by decide) (by decide)).2.2.2.2⟩

/-- Claim C3 counterexample: the non-comment line `"60001\tIGNORE\n"` is
longer than one character but holds a single tab, so the three-way tuple
unpacking of line 162/174 raises `ValueError` instead of recovering: a
local-file load aborts the run with an uncaught exception (interpreter
status 1) and a remote load exits 3. -/
theorem c3_short_line_aborts_run :
    lineRelevant "60001\tIGNORE\n" = true ∧
    parseLine "60001\tIGNORE\n" = none ∧
    loadPolicy (.localFile (some ["60001\tIGNORE\n"])) = .uncaught ∧
    loadPolicy (.remoteUrl (some ["60001\tIGNORE\n"])) = .exit3 := by
  decide

/-- Claim C3 amended: an action token outside the four recognized values
never aborts classification — it falls through the resolution chain
exactly like an explicit WARN entry (WARN normally, INFO when the
info-unspecified mode is active); only a line whose tab shape breaks the
tuple unpacking aborts the load. -/
theorem c3_unknown_action_equivalent_to_warn
    (config config2 : List (String × String)) (key v : String) (iu : Bool)
    (hv : lookup config key = some v)
    (h1 : v ≠ "IGNORE") (h2 : v ≠ "FAIL") (h3 : v ≠ "INFO")
    (hw : lookup config2 key = some "WARN") :
    resolveAction config iu key = (if iu then Action.INFO else Action.WARN) ∧
    resolveAction config iu key = resolveAction config2 iu key := by
  have ha := resolveAction_of_unrecognized config key v iu hv h1 h2 h3
  have hb := resolveAction_of_unrecognized config2 key "WARN" iu hw
    (by decide) (by decide) (by decide)
  exact ⟨ha, ha.trans hb.symm⟩

/-- Witness for the amended C3 at a concrete unknown token. -/
theorem c3_unknown_action_equivalent_to_warn_witness :
    lookup [("7", "BOGUS")] "7" = some "BOGUS" ∧
    (resolveAction [("7", "BOGUS")] false "7" =
      (if false then Action.INFO else Action.WARN) ∧
     resolveAction [("7", "BOGUS")] false "7" =
      resolveAction [("7", "WARN")] false "7") :=
  ⟨by decide,
    c3_unknown_action_equivalent_to_warn [("7", "BOGUS")] [("7", "WARN")]
      "7" "BOGUS" false (by decide) (by decide) (by decide) (by decide)
      (by decide)⟩

/-- Claim C4 counterexample: an engine that never becomes ready exhausts
all 120 probe attempts, yet the run does not fail with an
engine-unavailable error — it proceeds to open the target (the first
event of the run), the I/O error raised there is caught, and the process
exits through the counter ladder. -/
theorem c4_probe_exhaustion_still_opens_target :
    probeAttempts neverReadyEngine.ready = timeout ∧
    scanRun neverReadyEngine defaultRC 1 =
      some ([Event.openTarget, Event.ioErrorCaught],
        { counters := zeroCounters, template := none,
          htmlWritten := false, xmlWritten := false }, 3) := by
  exact ⟨rfl, rfl⟩

/-- Claim C4 amended: the readiness probe makes at most 120 attempts and
stops early on success, but exhausting the bound is not detected: when
the engine never becomes ready all 120 attempts are made and the run
still proceeds to open the target; the failure of that open is caught by
the top-level handler and the process exits 3 because every counter is
still zero — not through any engine-unavailable error. -/
theorem c4_probe_bounded_and_run_proceeds (e : EngineBehavior)
    (rc : RunConfig) (fuel : Nat)
    (hr : ∀ i, e.ready i = false) (ho : e.openRaises = true) :
    (∀ r : Nat → Bool, probeAttempts r ≤ timeout) ∧
    probeAttempts e.ready = timeout ∧
    scanRun e rc fuel =
      some ([Event.openTarget, Event.ioErrorCaught],
        { counters := zeroCounters, template := none,
          htmlWritten := false, xmlWritten := false }, 3) := by
  refine ⟨?bound, ?exhaust, ?run⟩
  · intro r
    unfold probeAttempts
    cases hf : (List.range timeout).find? (fun i => r i) with
    | none => exact le_refl _
    | some i =>
      have hm := List.mem_range.mp (List.mem_of_find?_eq_some hf)
      show i + 1 ≤ timeout
      omega
  · unfold probeAttempts
    rw [List.find?_eq_none.mpr (fun a _ => by simp [hr])]
  · unfold scanRun
    rw [if_pos ho]
    rfl

/-- Witness for the amended C4 at the concrete never-ready engine. -/
theorem c4_probe_bounded_and_run_proceeds_witness :
    probeAttempts neverReadyEngine.ready = timeout ∧
    scanRun neverReadyEngine defaultRC 5 =
      some ([Event.openTarget, Event.ioErrorCaught],
        { counters := zeroCounters, template := none,
          htmlWritten := false, xmlWritten := false }, 3) :=
  ⟨(c4_probe_bounded_and_run_proceeds neverReadyEngine defaultRC 5
      (fun _ => rfl) rfl).2.1,
   (c4_probe_bounded_and_run_proceeds neverReadyEngine defaultRC 5
      (fun _ => rfl) rfl).2.2⟩

/-- Claim C5 counterexample: swapping two findings of the same rule is a
permutation of the finding list but changes the printed group line — the
representative finding and the example-URL order follow the engine's
finding order, so the full output is not order-independent. -/
theorem c5_group_output_depends_on_finding_order :
    ([⟨"1", "T", "u1"⟩, ⟨"1", "T", "u2"⟩] : List Alert).Perm
      [⟨"1", "T", "u2"⟩, ⟨"1", "T", "u1"⟩] ∧
    groupLines [⟨"1", "T", "u1"⟩, ⟨"1", "T", "u2"⟩] [] false ≠
      groupLines [⟨"1", "T", "u2"⟩, ⟨"1", "T", "u1"⟩] [] false := by
  refine ⟨List.Perm.swap _ _ _, ?ne⟩
  decide

/-- Claim C5 amended: the group key ordering, the per-rule resolved
actions and finding counts, the pass ids and the whole Run Summary are
invariant under permutation of the findings; only the representative
finding and the example-URL order follow the input order. -/
theorem c5_counts_invariant_under_permutation (alertsA alertsB : List Alert)
    (rules : List Rule) (config : List (String × String)) (iu : Bool)
    (h : alertsA.Perm alertsB) :
    sortedKeys alertsA = sortedKeys alertsB ∧
    passIds alertsA rules = passIds alertsB rules ∧
    runCounters alertsA rules config iu = runCounters alertsB rules config iu ∧
    (groupLines alertsA config iu).map (fun g => (g.action, g.count)) =
      (groupLines alertsB config iu).map (fun g => (g.action, g.count)) := by
  have hkeysperm : (sortedKeys alertsA).Perm (sortedKeys alertsB) := by
    unfold sortedKeys
    exact (List.perm_insertionSort _ _).trans
      ((((h.map (fun a => a.pluginId)).filter _).dedup).trans
        (List.perm_insertionSort _ _).symm)
  have hkeys : sortedKeys alertsA = sortedKeys alertsB :=
    List.eq_of_perm_of_sorted hkeysperm (sorted_sortedKeys _)
      (sorted_sortedKeys _)
  have hdict : ∀ k, (alertDict alertsA k).length = (alertDict alertsB k).length ∧
      ((alertDict alertsA k = []) ↔ (alertDict alertsB k = [])) := by
    intro k
    rw [alertDict_eq_filter, alertDict_eq_filter]
    by_cases hk : k ∈ blacklist
    · simp [hk]
    · rw [if_neg hk, if_neg hk]
      have hp := h.filter (fun a => decide (a.pluginId = k))
      refine ⟨hp.length_eq, ?iff⟩
      constructor
      · intro he
        rw [he] at hp
        exact hp.symm.eq_nil
      · intro he
        rw [he] at hp
        exact hp.eq_nil
  have hpass : passIds alertsA rules = passIds alertsB rules := by
    unfold passIds
    congr 1
    apply List.filter_congr
    intro k _
    have hd : decide (alertDict alertsA k = []) =
        decide (alertDict alertsB k = []) :=
      decide_eq_decide.mpr (hdict k).2
    rw [hd]
  refine ⟨hkeys, hpass, ?counters, ?groups⟩
  · unfold runCounters
    rw [hkeys, hpass]
  · unfold groupLines
    rw [hkeys, List.map_map, List.map_map]
    apply List.map_congr_left
    intro k _
    simp only [Function.comp]
    exact congrArg (fun n => (resolveAction config iu k, n)) (hdict k).1

/-- Witness for the amended C5 at a concrete permutation. -/
theorem c5_counts_invariant_under_permutation_witness :
    sortedKeys [(⟨"1", "T", "u1"⟩ : Alert), ⟨"2", "S", "u2"⟩] =
      sortedKeys [(⟨"2", "S", "u2"⟩ : Alert), ⟨"1", "T", "u1"⟩] ∧
    passIds [(⟨"1", "T", "u1"⟩ : Alert), ⟨"2", "S", "u2"⟩] [⟨"3", "n"⟩] =
      passIds [(⟨"2", "S", "u2"⟩ : Alert), ⟨"1", "T", "u1"⟩] [⟨"3", "n"⟩] ∧
    runCounters [(⟨"1", "T", "u1"⟩ : Alert), ⟨"2", "S", "u2"⟩] [⟨"3", "n"⟩] [] false =
      runCounters [(⟨"2", "S", "u2"⟩ : Alert), ⟨"1", "T", "u1"⟩] [⟨"3", "n"⟩] [] false ∧
    (groupLines [(⟨"1", "T", "u1"⟩ : Alert), ⟨"2", "S", "u2"⟩] [] false).map
        (fun g => (g.action, g.count)) =
      (groupLines [(⟨"2", "S", "u2"⟩ : Alert), ⟨"1", "T", "u1"⟩] [] false).map
        (fun g => (g.action, g.count)) :=
  c5_counts_invariant_under_permutation _ _ [⟨"3", "n"⟩] [] false
    (List.Perm.swap _ _ _)

/-- Claim C6: a blacklisted rule id never yields a verdict group, never
appears among the pass ids (so never contributes to the PASS count or
listing), and never receives a generated template line — for every
finding list, catalog and policy. -/
theorem c6_blacklisted_id_fully_excluded (id0 : String)
    (hid : id0 ∈ blacklist) (alerts : List Alert) (rules : List Rule) :
    id0 ∉ sortedKeys alerts ∧ id0 ∉ passIds alerts rules ∧
    id0 ∉ templateKeys rules := by
  refine ⟨?g, ?p, ?t⟩
  · intro hmem
    exact (mem_sortedKeys.mp hmem).1 hid
  · intro hmem
    unfold passIds at hmem
    rw [List.mem_dedup, List.mem_filter] at hmem
    simp only [Bool.and_eq_true, Bool.not_eq_true',
      decide_eq_false_iff_not] at hmem
    exact hmem.2.1 hid
  · intro hmem
    unfold templateKeys at hmem
    rw [(List.perm_insertionSort _ _).mem_iff, List.mem_dedup,
      List.mem_filter] at hmem
    simp only [Bool.not_eq_true', decide_eq_false_iff_not] at hmem
    exact hmem.2 hid

/-- Witness for C6 at the blacklisted id `"50003"` against inputs that
mention it. -/
theorem c6_blacklisted_id_fully_excluded_witness :
    ("50003" : String) ∉ sortedKeys [(⟨"50003", "t", "u"⟩ : Alert)] ∧
    ("50003" : String) ∉ passIds [(⟨"50003", "t", "u"⟩ : Alert)]
      [⟨"50003", "Example"⟩] ∧
    ("50003" : String) ∉ templateKeys [(⟨"50003", "Example"⟩ : Rule)] :=
  c6_blacklisted_id_fully_excluded "50003" (by decide)
    [⟨"50003", "t", "u"⟩] [⟨"50003", "Example"⟩]

/-- Claim C7: with enough fuel the spider wait loop exits at round `i`
exactly when `i` is the first round whose reported progress reached 100
or whose elapsed seconds exceeded `mins * 60 + 10`; the timeout escape is
the same normal `some`-exit as the progress exit, not an error. -/
theorem c7_spider_wait_exit_iff (status elapsed : Nat → Nat)
    (mins i fuel : Nat) (hfuel : i < fuel) :
    spiderWait status elapsed mins fuel 0 = some i ↔
      ((100 ≤ status i ∨ mins * 60 + 10 < elapsed i) ∧
        ∀ j, j < i → status j < 100 ∧ elapsed j ≤ mins * 60 + 10) := by
  constructor
  · intro h
    have hs := spiderWait_sound status elapsed mins fuel 0 i h
    exact ⟨hs.2.1, fun j hj => hs.2.2 j (Nat.zero_le j) hj⟩
  · intro hc
    exact spiderWait_complete status elapsed mins fuel 0 i (Nat.zero_le i)
      (by omega) hc.1 (fun j _ hj => hc.2 j hj)

/-- Witness for C7: a trace whose progress first reaches 100 at round 2. -/
theorem c7_spider_wait_exit_iff_witness :
    (2 : Nat) < 5 ∧
    (spiderWait (fun n => if n = 2 then 100 else 0) (fun _ => 0) 1 5 0 =
        some 2 ↔
      ((100 ≤ (fun n => if n = 2 then 100 else 0) 2 ∨
          1 * 60 + 10 < (fun _ : Nat => 0) 2) ∧
        ∀ j, j < 2 → (fun n => if n = 2 then 100 else 0) j < 100 ∧
          (fun _ : Nat => 0) j ≤ 1 * 60 + 10)) :=
  ⟨by decide,
    c7_spider_wait_exit_iff (fun n => if n = 2 then 100 else 0)
      (fun _ => 0) 1 2 5 (by decide)⟩

/-- Claim C8 (evaluating the code at the failing input): an unreadable
local policy file makes `open` raise outside every `try` block, so the
interpreter aborts with status 1, not the claimed (and documented)
tooling-failure code 3; a failed remote fetch is caught and exits 3. -/
theorem c8_unreadable_policy_source_outcomes :
    loadPolicy (.localFile none) = .uncaught ∧
    exitStatusOf (loadPolicy (.localFile none)) = some 1 ∧
    loadPolicy (.remoteUrl none) = .exit3 ∧
    exitStatusOf (loadPolicy (.remoteUrl none)) = some 3 :=
  ⟨rfl, rfl, rfl, rfl⟩

/-- Claim C9: the sample policy line parses to the entry
(`60001`, IGNORE, `ignore this`), and for a non-excluded rule id with an
IGNORE policy entry, classifying its finding group increments only the
ignore counter — warn, fail and info stay zero and pass stays the
catalog-derived count. -/
theorem c9_ignore_entry_parse_and_count (config : List (String × String))
    (iu : Bool) (key : String) (alerts : List Alert) (rules : List Rule)
    (hk : lookup config key = some "IGNORE") (hbl : key ∉ blacklist)
    (hall : ∀ a ∈ alerts, a.pluginId = key) (hne : alerts ≠ []) :
    parseLine "60001\tIGNORE\t(msg)\tignore this" =
      some ("60001", "IGNORE", "ignore this") ∧
    runCounters alerts rules config iu =
      { pass := (passIds alerts rules).length, warn := 0, fail := 0,
        info := 0, ignore := 1 } := by
  refine ⟨by decide, ?count⟩
  have hkeys : sortedKeys alerts = [key] := by
    apply eq_singleton_of_nodup (nodup_sortedKeys alerts)
    · intro x hx
      rcases mem_sortedKeys.mp hx with ⟨_, a, ha, hpa⟩
      exact ((hall a ha).symm.trans hpa).symm
    · obtain ⟨a, ha⟩ := List.exists_mem_of_ne_nil alerts hne
      exact mem_sortedKeys.mpr ⟨hbl, a, ha, hall a ha⟩
  have hres : resolveAction config iu key = Action.IGNORE := by
    unfold resolveAction
    rw [hk, if_pos rfl]
  unfold runCounters
  rw [hkeys]
  simp [hres, bump, zeroCounters]

/-- Witness for C9: two findings of a non-excluded IGNORE-configured rule. -/
theorem c9_ignore_entry_parse_and_count_witness :
    lookup [("70000", "IGNORE")] "70000" = some "IGNORE" ∧
    ("70000" : String) ∉ blacklist ∧
    runCounters [(⟨"70000", "t", "u"⟩ : Alert), ⟨"70000", "t", "u2"⟩]
      [⟨"30", "n"⟩] [("70000", "IGNORE")] false =
      { pass := (passIds [(⟨"70000", "t", "u"⟩ : Alert), ⟨"70000", "t", "u2"⟩]
          [⟨"30", "n"⟩]).length, warn := 0, fail := 0, info := 0,
        ignore := 1 } :=
  ⟨by decide, by decide,
    (c9_ignore_entry_parse_and_count [("70000", "IGNORE")] false "70000"
      [⟨"70000", "t", "u"⟩, ⟨"70000", "t", "u2"⟩] [⟨"30", "n"⟩]
      (by decide) (by decide) (by decide) (by decide)).2⟩

/-- Claim C10: when the engine reports zero discovered URLs the whole
classification / template / report block is skipped — no template and no
report files even when requested, all five counters stay zero — and the
exit ladder then yields code 3, whatever the catalog, the loaded policy
and the report options were. -/
theorem c10_zero_urls_skips_block (numUrls : Nat) (alerts : List Alert)
    (rules : List Rule) (rc : RunConfig) (h : numUrls = 0) :
    runBody numUrls alerts rules rc =
      { counters := zeroCounters, template := none,
        htmlWritten := false, xmlWritten := false } ∧
    exitCode (runBody numUrls alerts rules rc).counters = 3 := by
  subst h
  exact ⟨rfl, rfl⟩

/-- Witness for C10: zero URLs with a non-empty catalog, a loaded FAIL
policy and every report output requested. -/
theorem c10_zero_urls_skips_block_witness :
    runBody 0 [(⟨"10", "t", "u"⟩ : Alert)] [⟨"10", "n"⟩]
      { config := [("10", "FAIL")], info_unspecified := false,
        generate := true, report_html := true, report_xml := true,
        mins := 1 } =
      { counters := zeroCounters, template := none,
        htmlWritten := false, xmlWritten := false } ∧
    exitCode (runBody 0 [(⟨"10", "t", "u"⟩ : Alert)] [⟨"10", "n"⟩]
      { config := [("10", "FAIL")], info_unspecified := false,
        generate := true, report_html := true, report_xml := true,
        mins := 1 }).counters = 3 :=
  c10_zero_urls_skips_block 0 [⟨"10", "t", "u"⟩] [⟨"10", "n"⟩]
    { config := [("10", "FAIL")], info_unspecified := false,
      generate := true, report_html := true, report_xml := true,
      mins := 1 } rfl

end ZapBaseline
